import Mathlib

/-!
# Verification of the Midjourney plugin (`plugins/linkai/midjourney.py`)

A shallow embedding of the `MJBot` subsystem: task records, the task
registry and dedup map, command dispatch (`judge_mj_task_type`,
`process_mj_task`), job submission (`generate`, `upscale`), the polling
coroutine (`check_task`) and result delivery (`_process_success_task`).

Python-specific behaviour is modelled explicitly:
* `str.split()` / `str.split(maxsplit=1)` over ASCII whitespace
  (`pySplit`, `pySplitMax1`); the unicode-whitespace cases of Python are
  not modelled, the claims only use ASCII input;
* `int(s)` as `pyInt` (optional sign, decimal digits, surrounding
  whitespace; digit-group underscores and unicode digits not modelled);
  a parse failure is Python's `ValueError`, surfaced as `Except.error`;
* dictionaries as association lists (`getKey`/`setKey`), dict-`get`
  truthiness as `truthy`;
* uncaught exceptions (`IndexError`, `ValueError`, `AttributeError`) as
  `Except.error` results;
* effects are made observable: each operation returns the replies it
  produced, the new registry state, the list of scheduled polling
  coroutines and a trace of events (HTTP calls, registry writes, lock
  acquire/release).
-/

/-- `TaskType` enum of the source. -/
inductive TaskType
  | GENERATE
  | UPSCALE
  | VARIATION
  | RESET
deriving DecidableEq, Repr

/-- Python `TaskType.<x>.name`. -/
def TaskType.pyName : TaskType → String
  | .GENERATE => "GENERATE"
  | .UPSCALE => "UPSCALE"
  | .VARIATION => "VARIATION"
  | .RESET => "RESET"

/-- `Status` enum of the source. -/
inductive Status
  | PENDING
  | FINISHED
  | EXPIRED
  | ABORTED
deriving DecidableEq, Repr

/-- Python `Status.<x>.name`. -/
def Status.pyName : Status → String
  | .PENDING => "PENDING"
  | .FINISHED => "FINISHED"
  | .EXPIRED => "EXPIRED"
  | .ABORTED => "ABORTED"

/-- `ReplyType` values used by the module (`bridge.reply`). -/
inductive ReplyType
  | TEXT
  | ERROR
  | INFO
  | IMAGE_URL
deriving DecidableEq, Repr

/-- A `Reply(type, content)`.  `content` is an `Option` because the code
can pass `None` (e.g. `task.img_url` before it is populated). -/
structure Reply where
  type : ReplyType
  content : Option String
deriving DecidableEq, Repr

/-- Python truthiness of `dict.get(key)` for a `bool`-valued dict:
`None` and `False` are falsy. -/
def truthy : Option Bool → Bool
  | none => false
  | some b => b

/-- Python truthiness of an optional string (`if real_prompt:`):
`None` and `""` are falsy. -/
def strTruthy : Option String → Bool
  | none => false
  | some s => s ≠ ""

/-- Python `f"{x}"` of an optional string: `None` prints as `"None"`. -/
def pyStr : Option String → String
  | none => "None"
  | some s => s

/-- ASCII whitespace recognised by Python's `str.split()`. -/
def isPySpace (c : Char) : Bool :=
  c = ' ' || c = '\t' || c = '\n' || c = '\r' || c = '\x0b' || c = '\x0c'

/-- Helper for `str.split()` with no separator: accumulate the current
token (reversed) and emit tokens at whitespace boundaries; empty tokens
are never produced. -/
def pySplitGo : List Char → List Char → List (List Char)
  | [], acc => if acc.isEmpty then [] else [acc.reverse]
  | c :: cs, acc =>
    if isPySpace c then
      if acc.isEmpty then pySplitGo cs [] else acc.reverse :: pySplitGo cs []
    else
      pySplitGo cs (c :: acc)

/-- Python `s.split()`: split on runs of whitespace, no empty tokens. -/
def pySplit (s : String) : List String :=
  (pySplitGo s.data []).map List.asString

/-- Python `s.split(maxsplit=1)`: at most one split; the remainder keeps
its internal and trailing whitespace but the separating run is consumed. -/
def pySplitMax1 (s : String) : List String :=
  let cs := s.data.dropWhile isPySpace
  if cs.isEmpty then []
  else
    let tok := cs.takeWhile (fun c => !isPySpace c)
    let rest := (cs.dropWhile (fun c => !isPySpace c)).dropWhile isPySpace
    if rest.isEmpty then [tok.asString] else [tok.asString, rest.asString]

/-- Decimal digits to a number; `none` unless the list is a nonempty
run of ASCII digits. -/
def digitsToNat (cs : List Char) : Option Nat :=
  if cs ≠ [] ∧ cs.all Char.isDigit then
    some (cs.foldl (fun a c => a * 10 + (c.toNat - 48)) 0)
  else none

/-- Python's `str.strip()` over ASCII whitespace. -/
def pyStrip (cs : List Char) : List Char :=
  ((cs.dropWhile isPySpace).reverse.dropWhile isPySpace).reverse

/-- Python `int(s)`: optional surrounding whitespace, optional sign,
decimal digits.  `none` models the `ValueError` raise. -/
def pyInt (s : String) : Option Int :=
  match pyStrip s.data with
  | '-' :: rest => (digitsToNat rest).map (fun n => -(n : Int))
  | '+' :: rest => (digitsToNat rest).map (fun n => (n : Int))
  | cs => (digitsToNat cs).map (fun n => (n : Int))

/-- Dict lookup on an association list (Python `d.get(k)` / `d[k]`). -/
def getKey {κ α : Type} [DecidableEq κ] : List (κ × α) → κ → Option α
  | [], _ => none
  | (k', v) :: rest, k => if k' = k then some v else getKey rest k

/-- Dict assignment `d[k] = v`: replace in place, or append when absent. -/
def setKey {κ α : Type} [DecidableEq κ] : List (κ × α) → κ → α → List (κ × α)
  | [], k, v => [(k, v)]
  | (k', v') :: rest, k, v =>
    if k' = k then (k, v) :: rest else (k', v') :: setKey rest k v

/-- The substring relation used to state "the reply contains …". -/
def strContains (s t : String) : Prop := t.data <:+: s.data

instance (s t : String) : Decidable (strContains s t) :=
  inferInstanceAs (Decidable (t.data <:+: s.data))

/-- An `MJTask` record.  Task ids come from the remote JSON, so the key
can in principle be Python `None` (`res.get("data").get("taskId")`):
ids are `Option String`.  The unused `send_func` field (set to `None`
and never read) is omitted. -/
structure MJTask where
  id : Option String
  user_id : String
  task_type : TaskType
  raw_prompt : Option String
  expiry_time : Nat
  status : Status
  img_url : Option String
  img_id : Option String
deriving DecidableEq, Repr

/-- `MJTask.__init__` with the default `expires=60*30`; `now` models
`time.time()`. -/
def MJTask.make (id : Option String) (user_id : String)
    (task_type : TaskType) (raw_prompt : Option String) (now : Nat)
    (status : Status) : MJTask :=
  { id := id, user_id := user_id, task_type := task_type
    raw_prompt := raw_prompt, expiry_time := now + 60 * 30
    status := status, img_url := none, img_id := none }

/-- The mutable state of an `MJBot`: the task registry `self.tasks` and
the dedup map `self.temp_dict`. -/
structure BotState where
  tasks : List (Option String × MJTask)
  temp_dict : List (String × Bool)
deriving DecidableEq, Repr

/-- Observable events emitted by an operation, in program order.  The
source's `self.tasks_lock` is modelled by `acquireLock`/`releaseLock`
events: an embedding of a `with self.tasks_lock:` block would bracket
its body with them.  No method of the source ever enters such a block,
so no embedded operation emits them. -/
inductive Event
  | httpPostGenerate
  | httpPostOperate
  | writeTasks (id : Option String)
  | writeTempDict (key : String)
  | scheduleCoroutine (id : Option String)
  | acquireLock
  | releaseLock
deriving DecidableEq, Repr

/-- Result of `generate`/`upscale`/`process_mj_task`: the returned reply
(`none` when the Python function falls through and returns `None`), the
state after, the task ids handed to `run_coroutine_threadsafe`, and the
event trace. -/
structure OpResult where
  reply : Option Reply
  state : BotState
  scheduled : List (Option String)
  trace : List Event
deriving DecidableEq, Repr

/-- Parsed JSON `data` object of a `/generate` or `/operate` response. -/
structure RespData where
  taskId : Option String
  realPrompt : Option String
deriving DecidableEq, Repr

/-- A `/generate` or `/operate` HTTP response: transport status code and
the parsed JSON body fields the code reads. -/
structure HttpResponse where
  status_code : Nat
  code : Option Int
  data : Option RespData
  message : Option String
deriving DecidableEq, Repr

/-- Number of unlock-state `writeTasks` events in a trace: counts, while
folding over the trace and tracking the lock-nesting depth, the registry
writes performed with the lock not held. -/
def unlockedTaskWritesGo : List Event → Nat → Nat
  | [], _ => 0
  | .writeTasks _ :: tr, depth =>
    (if depth = 0 then 1 else 0) + unlockedTaskWritesGo tr depth
  | .acquireLock :: tr, depth => unlockedTaskWritesGo tr (depth + 1)
  | .releaseLock :: tr, depth => unlockedTaskWritesGo tr (depth - 1)
  | _ :: tr, depth => unlockedTaskWritesGo tr depth

/-- Registry writes in a trace performed while not holding the lock. -/
def unlockedTaskWrites (tr : List Event) : Nat := unlockedTaskWritesGo tr 0

/-- Total number of `writeTasks` events in a trace. -/
def taskWrites (tr : List Event) : Nat :=
  (tr.filter (fun e => match e with | .writeTasks _ => true | _ => false)).length

/-- `ContextType` values relevant to the module. -/
inductive ContextType
  | TEXT
  | IMAGE
  | VOICE
deriving DecidableEq, Repr

/-- `MJBot.judge_mj_task_type`.  `configEnabled` is the truthiness of
`self.config and self.config.get("enabled")`.  An empty or
whitespace-only text content makes `content.split(maxsplit=1)` empty,
and `cmd_list[0]` raises `IndexError`. -/
def judge_mj_task_type (trigger_pfx : String) (configEnabled : Bool)
    (ctype : ContextType) (content : String) :
    Except String (Option TaskType) :=
  if ctype = ContextType.TEXT then
    if configEnabled then
      match pySplitMax1 content with
      | [] => Except.error "IndexError"
      | c0 :: _ =>
        if c0.toLower = trigger_pfx ++ "mj" then
          Except.ok (some TaskType.GENERATE)
        else if c0.toLower = trigger_pfx ++ "mju" then
          Except.ok (some TaskType.UPSCALE)
        else Except.ok none
    else Except.ok none
  else Except.ok none

/-- `MJBot.get_help_text`. -/
def get_help_text (verbose : Bool) (trigger_pfx : String) : String :=
  let help_text := "利用midjourney来画图。\n"
  if !verbose then help_text
  else
    help_text ++ trigger_pfx ++
      "mj 描述词1,描述词2 ... ： 利用描述词作画，参数请放在提示词之后。\n" ++
      trigger_pfx ++
      "mjimage 描述词1,描述词2 ... ： 利用描述词进行图生图，参数请放在提示词之后。\n" ++
      trigger_pfx ++ "mjr ID: 对指定ID消息重新生成图片。\n" ++
      trigger_pfx ++ "mju ID 图片序号: 对指定ID消息中的第x张图片进行放大。\n" ++
      trigger_pfx ++ "mjv ID 图片序号: 对指定ID消息中的第x张图片进行变换。\n例如：\n\"" ++
      trigger_pfx ++ "mj a little cat, white --ar 9:16\"\n\"" ++
      trigger_pfx ++ "mjimage a white cat --ar 9:16\"\n\"" ++
      trigger_pfx ++ "mju 1105592717188272288 2\""

/-- `MJBot.generate`.  `res` is the `/generate` HTTP response, `now`
models `time.time()`.  In the source the `else` pairs with the outer
`status_code == 200` test, so an HTTP-200 response whose body `code` is
not 200 falls through and the function returns `None`. -/
def generate (prompt : String) (user_id : String) (res : HttpResponse)
    (st : BotState) (now : Nat) : Except String OpResult :=
  if res.status_code = 200 then
    if res.code = some 200 then
      match res.data with
      | none => Except.error "AttributeError"
      | some d =>
        let task_id := d.taskId
        let real_prompt := d.realPrompt
        let content := "🚀你的作品将在1~2分钟左右完成，请耐心等待\n- - - - - - - - -\n" ++
          (if strTruthy real_prompt then
            "初始prompt: " ++ prompt ++ "\n转换后prompt: " ++ pyStr real_prompt
          else
            "prompt: " ++ prompt)
        let reply := Reply.mk ReplyType.INFO (some content)
        let task := MJTask.make task_id user_id TaskType.GENERATE (some prompt)
          now Status.PENDING
        Except.ok
          { reply := some reply
            state := { st with tasks := setKey st.tasks task.id task }
            scheduled := [task.id]
            trace := [Event.httpPostGenerate, Event.writeTasks task.id,
                      Event.scheduleCoroutine task.id] }
    else
      Except.ok { reply := none, state := st, scheduled := []
                  trace := [Event.httpPostGenerate] }
  else
    Except.ok
      { reply := some (Reply.mk ReplyType.ERROR (some "图片生成失败，请稍后再试"))
        state := st, scheduled := [], trace := [Event.httpPostGenerate] }

/-- `MJBot.upscale`.  `res` is the `/operate` HTTP response.  The same
dangling-`else` shape as `generate`: HTTP 200 with body `code ≠ 200`
returns `None`.  On non-200 transport status, 461 maps to the
wrong-image-id message, anything else to the generic failure message
(`error_msg or "..."`). -/
def upscale (user_id : String) (img_id : String) (index : Int)
    (res : HttpResponse) (st : BotState) (now : Nat) :
    Except String OpResult :=
  if res.status_code = 200 then
    if res.code = some 200 then
      match res.data with
      | none => Except.error "AttributeError"
      | some d =>
        let task_id := d.taskId
        let reply := Reply.mk ReplyType.INFO (some "🔎图片正在放大中，请耐心等待")
        let task := MJTask.make task_id user_id TaskType.UPSCALE none now
          Status.PENDING
        let key := TaskType.UPSCALE.pyName ++ "_" ++ img_id ++ "_" ++ toString index
        Except.ok
          { reply := some reply
            state := { tasks := setKey st.tasks task.id task
                       temp_dict := setKey st.temp_dict key true }
            scheduled := [task.id]
            trace := [Event.httpPostOperate, Event.writeTasks task.id,
                      Event.writeTempDict key, Event.scheduleCoroutine task.id] }
    else
      Except.ok { reply := none, state := st, scheduled := []
                  trace := [Event.httpPostOperate] }
  else
    let error_msg := if res.status_code = 461 then "请输入正确的图片ID" else ""
    let msg := if error_msg ≠ "" then error_msg else "图片生成失败，请稍后再试"
    Except.ok
      { reply := some (Reply.mk ReplyType.ERROR (some msg))
        state := st, scheduled := [], trace := [Event.httpPostOperate] }

/-- `MJBot.process_mj_task`.  `content` is the message text,
`session_id` the session, `genRes`/`opRes` the environment's HTTP
response should the corresponding POST be issued.  A non-numeric index
makes `int(clist[1])` raise `ValueError`. -/
def process_mj_task (mj_type : TaskType) (content : String)
    (session_id : String) (genRes : HttpResponse) (opRes : HttpResponse)
    (st : BotState) (now : Nat) (trigger_pfx : String) :
    Except String OpResult :=
  let cmd := pySplitMax1 content
  if cmd.length = 1 then
    Except.ok
      { reply := some (Reply.mk ReplyType.ERROR
          (some (get_help_text true trigger_pfx)))
        state := st, scheduled := [], trace := [] }
  else
    match mj_type with
    | TaskType.GENERATE =>
      match cmd with
      | _ :: raw_prompt :: _ => generate raw_prompt session_id genRes st now
      | _ => Except.error "IndexError"
    | TaskType.UPSCALE =>
      match cmd with
      | cmd0 :: cmd1 :: _ =>
        match pySplit cmd1 with
        | img_id :: istr :: _ =>
          match pyInt istr with
          | none => Except.error "ValueError"
          | some index =>
            if index < 1 ∨ index > 4 then
              Except.ok
                { reply := some (Reply.mk ReplyType.ERROR
                    (some ("图片序号 " ++ toString index ++ " 错误，应在 1 至 4 之间")))
                  state := st, scheduled := [], trace := [] }
            else
              let key := TaskType.UPSCALE.pyName ++ "_" ++ img_id ++ "_" ++
                toString index
              if truthy (getKey st.temp_dict key) then
                Except.ok
                  { reply := some (Reply.mk ReplyType.ERROR
                      (some ("第 " ++ toString index ++ " 张图片已经放大过了")))
                    state := st, scheduled := [], trace := [] }
              else
                upscale session_id img_id index opRes st now
        | _ =>
          Except.ok
            { reply := some (Reply.mk ReplyType.ERROR
                (some (cmd0 ++ " 命令缺少参数")))
              state := st, scheduled := [], trace := [] }
      | _ => Except.error "IndexError"
    | _ =>
      Except.ok
        { reply := some (Reply.mk ReplyType.ERROR (some "暂不支持该命令"))
          state := st, scheduled := [], trace := [] }

/-- Parsed JSON `data` object of a `GET /tasks/{id}` response. -/
structure PollData where
  status : Option String
  imgId : Option String
  imgUrl : Option String
deriving DecidableEq, Repr

/-- One `GET /tasks/{id}` response: transport status and parsed body. -/
structure PollResponse where
  status : Nat
  data : Option PollData
deriving DecidableEq, Repr

/-- The success test of `check_task`:
`res_json.get("data") and res_json.get("data").get("status") == Status.FINISHED.name`.
(A present-but-empty `data` dict is falsy in Python; its `status` would
also read as `None`, so collapsing both to the `Option` suffices.) -/
def pollFinished (r : PollResponse) : Bool :=
  match r.data with
  | some d => d.status = some Status.FINISHED.pyName
  | none => false

/-- Observable outcome of one run of the `check_task` coroutine: number
of loop iterations entered, number of `asyncio.sleep(10)` calls, and
whether it ended by observing `FINISHED` (as opposed to exhausting the
retry budget). -/
structure CheckRun where
  iters : Nat
  sleeps : Nat
  finished : Bool
deriving DecidableEq, Repr

/-- The loop of `MJBot.check_task`, with `budget` = `max_retry_time`
(a Python int, so modelled as `Int`) and `responses i` the HTTP response
of the `i`-th poll.  On HTTP 200 with `FINISHED` data the coroutine
returns at once (no sleep, no decrement); on any other HTTP 200 it
sleeps and decrements by 1; on HTTP ≠ 200 it decrements by 20, sleeps,
and decrements by 1. -/
def check_task_go (responses : Nat → PollResponse) (budget : Int)
    (i : Nat) (iters : Nat) (sleeps : Nat) : CheckRun :=
  if h : budget > 0 then
    if (responses i).status = 200 ∧ pollFinished (responses i) = true then
      { iters := iters + 1, sleeps := sleeps, finished := true }
    else
      check_task_go responses
        ((if (responses i).status = 200 then budget else budget - 20) - 1)
        (i + 1) (iters + 1) (sleeps + 1)
  else
    { iters := iters, sleeps := sleeps, finished := false }
termination_by budget.toNat
decreasing_by
  split <;> omega

/-- `MJBot.check_task`: the loop starting from `max_retry_time = 80`. -/
def check_task (responses : Nat → PollResponse) : CheckRun :=
  check_task_go responses 80 0 0 0

/-- Observable outcome of `_process_success_task`: the updated task
record and the replies sent to the channel, in order. -/
structure DeliverResult where
  task : MJTask
  sent : List Reply
deriving DecidableEq, Repr

/-- `MJBot._process_success_task`: mark the task `FINISHED`, populate
`img_id`/`img_url` from the poll payload, send the image-URL reply, and
for `GENERATE` tasks additionally send the follow-up info text. -/
def process_success_task (task : MJTask) (res : PollData)
    (trigger_pfx : String) : DeliverResult :=
  let task := { task with
    status := Status.FINISHED, img_id := res.imgId, img_url := res.imgUrl }
  let imgReply := Reply.mk ReplyType.IMAGE_URL task.img_url
  if task.task_type = TaskType.GENERATE then
    let text := "🎨绘画完成!\nprompt: " ++ pyStr task.raw_prompt ++
      "\n- - - - - - - - -\n图片ID: " ++ pyStr task.img_id ++
      "\n\n🔎可使用 " ++ trigger_pfx ++ "mju 命令放大指定图片\n" ++
      "例如：\n" ++ trigger_pfx ++ "mju " ++ pyStr task.img_id ++ " 1"
    { task := task, sent := [imgReply, Reply.mk ReplyType.INFO (some text)] }
  else
    { task := task, sent := [imgReply] }

/-- The task registry's write-state after an operation, with Python's
in-place object mutation of `_process_success_task` made explicit: the
delivered task is re-stored under its id (the dict keys are untouched).
`check` is a poll iteration that did not observe `FINISHED`; it performs
no registry access at all. -/
inductive MJOp
  | gen (prompt : String) (user_id : String) (res : HttpResponse) (now : Nat)
  | ups (user_id : String) (img_id : String) (index : Int)
      (res : HttpResponse) (now : Nat)
  | check
  | deliver (id : Option String) (res : PollData) (trigger_pfx : String)

/-- State transition of one operation on the registry state.  A raised
exception (`Except.error`) leaves the state unchanged: in the source the
raise happens before any write. -/
def applyOp (st : BotState) : MJOp → BotState
  | MJOp.gen p u r n =>
    match generate p u r st n with
    | Except.ok res => res.state
    | Except.error _ => st
  | MJOp.ups u g idx r n =>
    match upscale u g idx r st n with
    | Except.ok res => res.state
    | Except.error _ => st
  | MJOp.check => st
  | MJOp.deliver id res tp =>
    match getKey st.tasks id with
    | some t =>
      { st with tasks := setKey st.tasks id (process_success_task t res tp).task }
    | none => st

/-- A whole sequence of operations. -/
def applyOps (st : BotState) : List MJOp → BotState
  | [] => st
  | op :: ops => applyOps (applyOp st op) ops

/-- Lookup after assignment, for association-list dicts. -/
theorem getKey_setKey {κ α : Type} [DecidableEq κ] (m : List (κ × α))
    (k k' : κ) (v : α) :
    getKey (setKey m k v) k' = if k = k' then some v else getKey m k' := by
  induction m with
  | nil => simp [setKey, getKey]
  | cons hd tl ih =>
    obtain ⟨k₀, v₀⟩ := hd
    by_cases h₀ : k₀ = k
    · subst h₀
      by_cases h' : k₀ = k'
      · subst h'
        simp [setKey, getKey]
      · simp [setKey, getKey, h']
    · by_cases h' : k₀ = k'
      · subst h'
        have : ¬ k = k₀ := fun h => h₀ h.symm
        simp [setKey, getKey, h₀, this]
      · simp [setKey, getKey, h₀, h', ih]

/-- Shared fixtures: the empty bot state and sample HTTP responses. -/
def st0 : BotState := ⟨[], []⟩

/-- A successful `/generate` response carrying task id `T1`. -/
def genOK : HttpResponse := ⟨200, some 200, some ⟨some "T1", none⟩, none⟩

/-- A successful `/generate` response with a rewritten prompt. -/
def genOKrp : HttpResponse := ⟨200, some 200, some ⟨some "T1", some "real cat"⟩, none⟩

/-- A `/generate` response with transport failure (HTTP 500). -/
def genHttpErr : HttpResponse := ⟨500, some 500, none, some "boom"⟩

/-- A `/generate` response with HTTP 200 but body `code = 500`. -/
def genCodeErr : HttpResponse := ⟨200, some 500, none, some "boom"⟩

/-- A `/generate` response with HTTP 200 but body `code = 404`. -/
def genCodeErr' : HttpResponse := ⟨200, some 404, none, some "boom"⟩

/-- A successful `/operate` response carrying task id `T2`. -/
def opOK : HttpResponse := ⟨200, some 200, some ⟨some "T2", none⟩, none⟩

/-- An `/operate` response with the invalid-image-id status 461. -/
def opErr461 : HttpResponse := ⟨461, none, none, some "bad id"⟩

/-- C9: an empty (or whitespace-only) plain-text message while the
subsystem is enabled makes `judge_mj_task_type` raise `IndexError` at
`cmd_list[0]` (the `maxsplit=1` split of such content is empty) instead
of returning no task type. -/
theorem judge_empty_content_raises :
    judge_mj_task_type "$" true ContextType.TEXT "" = Except.error "IndexError" ∧
    judge_mj_task_type "$" true ContextType.TEXT " \t " = Except.error "IndexError" := by
  constructor <;> rfl

/-- C10: when `POST /operate` does not come back as HTTP 200 with body
`code = 200`, `upscale` performs no state change: no task is registered,
no dedup key is marked, no polling coroutine is scheduled; the only
event is the POST itself. -/
theorem upscale_failure_state_unchanged (user_id : String) (img_id : String)
    (index : Int) (res : HttpResponse) (st : BotState) (now : Nat)
    (h : ¬(res.status_code = 200 ∧ res.code = some 200)) :
    ∃ r : OpResult, upscale user_id img_id index res st now = Except.ok r ∧
      r.state = st ∧ r.scheduled = [] ∧ r.trace = [Event.httpPostOperate] := by
  by_cases h1 : res.status_code = 200
  · have h2 : ¬ res.code = some 200 := fun hc => h ⟨h1, hc⟩
    exact ⟨⟨none, st, [], [Event.httpPostOperate]⟩, by simp [upscale, h1, h2], rfl, rfl, rfl⟩
  · refine ⟨⟨some (Reply.mk ReplyType.ERROR (some (if res.status_code = 461
      then "请输入正确的图片ID" else "图片生成失败，请稍后再试"))), st, [],
      [Event.httpPostOperate]⟩, ?_, rfl, rfl, rfl⟩
    by_cases h461 : res.status_code = 461
    · simp [upscale, h1, h461]
    · simp [upscale, h1, h461]

/-- Witness for C10 at the concrete 461 response. -/
theorem upscale_failure_state_unchanged_witness :
    ∃ r : OpResult, upscale "u1" "img1" 2 opErr461 st0 0 = Except.ok r ∧
      r.state = st0 ∧ r.scheduled = [] ∧ r.trace = [Event.httpPostOperate] :=
  upscale_failure_state_unchanged "u1" "img1" 2 opErr461 st0 0 (by decide)

/-- C4: an Upscale request whose `UPSCALE_{imgId}_{index}` key is marked
in the dedup map gets the duplicate warning reply; the state is returned
unchanged (registry and dedup map), no event occurs (in particular no
`POST /operate`), and nothing is scheduled. -/
theorem upscale_dedup_hit (content : String) (session_id : String)
    (genRes : HttpResponse) (opRes : HttpResponse) (st : BotState) (now : Nat)
    (tp : String) (cmd0 cmd1 : String) (rest : List String)
    (img : String) (istr : String) (r2 : List String) (n : Int)
    (hcmd : pySplitMax1 content = cmd0 :: cmd1 :: rest)
    (hclist : pySplit cmd1 = img :: istr :: r2)
    (hn : pyInt istr = some n) (h1 : 1 ≤ n) (h4 : n ≤ 4)
    (hdup : getKey st.temp_dict
      (TaskType.UPSCALE.pyName ++ "_" ++ img ++ "_" ++ toString n) = some true) :
    process_mj_task TaskType.UPSCALE content session_id genRes opRes st now tp =
      Except.ok ⟨some (Reply.mk ReplyType.ERROR
        (some ("第 " ++ toString n ++ " 张图片已经放大过了"))), st, [], []⟩ := by
  have hlen : (pySplitMax1 content).length ≠ 1 := by rw [hcmd]; simp
  have hrange : ¬(n < 1 ∨ n > 4) := by omega
  simp only [process_mj_task, hcmd, hn, hclist, hlen, if_neg hlen]
  simp [hrange, hdup, truthy]

/-- Witness for C4: `$mju img1 2` with the key `UPSCALE_img1_2` already
marked. -/
theorem upscale_dedup_hit_witness :
    process_mj_task TaskType.UPSCALE "$mju img1 2" "s1" genOK opOK
      ⟨[], [("UPSCALE_img1_2", true)]⟩ 0 "$" =
      Except.ok ⟨some (Reply.mk ReplyType.ERROR
        (some "第 2 张图片已经放大过了")), ⟨[], [("UPSCALE_img1_2", true)]⟩, [], []⟩ :=
  upscale_dedup_hit "$mju img1 2" "s1" genOK opOK ⟨[], [("UPSCALE_img1_2", true)]⟩ 0 "$"
    "$mju" "img1 2" [] "img1" "2" [] 2 (by rfl) (by rfl) (by rfl)
    (by decide) (by decide) (by rfl)

/-- Projection: the event trace of an operation (`[]` on a raise, which
in the source happens before any traced effect). -/
def opTrace : Except String OpResult → List Event
  | Except.ok r => r.trace
  | Except.error _ => []

/-- C2 counterexample: with HTTP 200 and body `code = 500`, `generate`
does not return the generic error reply — the `else` binds to the outer
status test, so the function falls through and returns `None` (no reply
at all).  No task is registered and nothing is scheduled, but the
claimed error-level reply is absent. -/
theorem generate_code_error_counterexample :
    generate "a cat" "u1" genCodeErr st0 0 =
      Except.ok ⟨none, st0, [], [Event.httpPostGenerate]⟩ := by
  rfl

/-- C2 amended: on HTTP ≠ 200, `generate` returns the generic error
reply; on HTTP 200 with body `code ≠ 200` it returns `None` (no reply).
In both cases no Task Record is registered (the state is unchanged) and
no polling coroutine is scheduled. -/
theorem generate_failure_no_registration (prompt : String) (user_id : String)
    (res : HttpResponse) (st : BotState) (now : Nat) :
    (res.status_code ≠ 200 →
      generate prompt user_id res st now = Except.ok
        ⟨some (Reply.mk ReplyType.ERROR (some "图片生成失败，请稍后再试")),
         st, [], [Event.httpPostGenerate]⟩) ∧
    (res.status_code = 200 → res.code ≠ some 200 →
      generate prompt user_id res st now = Except.ok
        ⟨none, st, [], [Event.httpPostGenerate]⟩) := by
  constructor
  · intro h
    simp [generate, h]
  · intro h1 h2
    simp [generate, h1, h2]

/-- Witness for the amended C2 at HTTP 500 and at HTTP 200/`code = 404`. -/
theorem generate_failure_no_registration_witness :
    generate "a cat" "u1" genHttpErr st0 0 = Except.ok
      ⟨some (Reply.mk ReplyType.ERROR (some "图片生成失败，请稍后再试")),
       st0, [], [Event.httpPostGenerate]⟩ ∧
    generate "a cat" "u1" genCodeErr' st0 0 = Except.ok
      ⟨none, st0, [], [Event.httpPostGenerate]⟩ :=
  ⟨(generate_failure_no_registration "a cat" "u1" genHttpErr st0 0).1 (by decide),
   (generate_failure_no_registration "a cat" "u1" genCodeErr' st0 0).2 rfl (by decide)⟩

/-- C6 counterexample: the successful `generate` path writes the task
registry with the lock-nesting depth at 0 — `tasks_lock` is created in
`__init__` but no code path ever acquires it, so the write is not
performed under the lock. -/
theorem registry_write_without_lock_counterexample :
    opTrace (generate "a cat" "u1" genOK st0 0) =
      [Event.httpPostGenerate, Event.writeTasks (some "T1"),
       Event.scheduleCoroutine (some "T1")] ∧
    unlockedTaskWrites (opTrace (generate "a cat" "u1" genOK st0 0)) = 1 := by
  constructor <;> rfl

/-- C6 amended: every write to the task registry performed by `generate`
and `upscale` happens while *not* holding `tasks_lock`: no execution of
either operation ever acquires or releases the lock, and every
`writeTasks` event in any trace occurs at lock depth 0. -/
theorem registry_writes_lockless (prompt : String) (user_id : String)
    (img_id : String) (index : Int) (gres : HttpResponse) (ores : HttpResponse)
    (st : BotState) (now : Nat) :
    (Event.acquireLock ∉ opTrace (generate prompt user_id gres st now) ∧
     Event.releaseLock ∉ opTrace (generate prompt user_id gres st now) ∧
     unlockedTaskWrites (opTrace (generate prompt user_id gres st now)) =
       taskWrites (opTrace (generate prompt user_id gres st now))) ∧
    (Event.acquireLock ∉ opTrace (upscale user_id img_id index ores st now) ∧
     Event.releaseLock ∉ opTrace (upscale user_id img_id index ores st now) ∧
     unlockedTaskWrites (opTrace (upscale user_id img_id index ores st now)) =
       taskWrites (opTrace (upscale user_id img_id index ores st now))) := by
  constructor
  · by_cases h1 : gres.status_code = 200
    · by_cases h2 : gres.code = some 200
      · cases hd : gres.data with
        | none =>
          simp [generate, opTrace, h1, h2, hd, unlockedTaskWrites,
            unlockedTaskWritesGo, taskWrites]
        | some d =>
          simp [generate, opTrace, h1, h2, hd, unlockedTaskWrites,
            unlockedTaskWritesGo, taskWrites]
      · simp [generate, opTrace, h1, h2, unlockedTaskWrites,
          unlockedTaskWritesGo, taskWrites]
    · simp [generate, opTrace, h1, unlockedTaskWrites,
        unlockedTaskWritesGo, taskWrites]
  · by_cases h1 : ores.status_code = 200
    · by_cases h2 : ores.code = some 200
      · cases hd : ores.data with
        | none =>
          simp [upscale, opTrace, h1, h2, hd, unlockedTaskWrites,
            unlockedTaskWritesGo, taskWrites]
        | some d =>
          simp [upscale, opTrace, h1, h2, hd, unlockedTaskWrites,
            unlockedTaskWritesGo, taskWrites]
      · simp [upscale, opTrace, h1, h2, unlockedTaskWrites,
          unlockedTaskWritesGo, taskWrites]
    · simp [upscale, opTrace, h1, unlockedTaskWrites,
        unlockedTaskWritesGo, taskWrites]

/-- Build a containment proof from an explicit split of the char data. -/
theorem strContains_data (s t : String) (u v : List Char)
    (h : u ++ t.data ++ v = s.data) : strContains s t := ⟨u, v, h⟩

/-- The equation of `generate` on the success path (HTTP 200, body
`code = 200`, `data` present). -/
theorem generate_success_eq (prompt : String) (user_id : String)
    (res : HttpResponse) (st : BotState) (now : Nat) (d : RespData)
    (hs : res.status_code = 200) (hc : res.code = some 200)
    (hd : res.data = some d) :
    generate prompt user_id res st now = Except.ok
      ⟨some (Reply.mk ReplyType.INFO (some
          ("🚀你的作品将在1~2分钟左右完成，请耐心等待\n- - - - - - - - -\n" ++
            (if strTruthy d.realPrompt then
              "初始prompt: " ++ prompt ++ "\n转换后prompt: " ++ pyStr d.realPrompt
            else "prompt: " ++ prompt)))),
       ⟨setKey st.tasks d.taskId
          (MJTask.make d.taskId user_id TaskType.GENERATE (some prompt) now
            Status.PENDING), st.temp_dict⟩,
       [d.taskId],
       [Event.httpPostGenerate, Event.writeTasks d.taskId,
        Event.scheduleCoroutine d.taskId]⟩ := by
  simp [generate, hs, hc, hd, MJTask.make]

/-- C5: a Generate submission answered with HTTP 200, body `code = 200`
and task id `t` registers exactly one Pending `GENERATE` Task Record
under `t` (all other registry keys are untouched and the dedup map is
unchanged), schedules exactly one polling coroutine (for `t`), and
returns an informational reply whose text contains the original prompt,
and the rewritten prompt whenever `realPrompt` is present (non-empty). -/
theorem generate_success_registers (prompt : String) (user_id : String)
    (res : HttpResponse) (st : BotState) (now : Nat) (d : RespData) (t : String)
    (hs : res.status_code = 200) (hc : res.code = some 200)
    (hd : res.data = some d) (ht : d.taskId = some t) :
    ∃ r : OpResult, generate prompt user_id res st now = Except.ok r ∧
      getKey r.state.tasks (some t) = some (MJTask.make (some t) user_id
        TaskType.GENERATE (some prompt) now Status.PENDING) ∧
      (∀ k, k ≠ some t → getKey r.state.tasks k = getKey st.tasks k) ∧
      r.state.temp_dict = st.temp_dict ∧
      r.scheduled = [some t] ∧
      taskWrites r.trace = 1 ∧
      ∃ c, r.reply = some (Reply.mk ReplyType.INFO (some c)) ∧
        strContains c prompt ∧
        (∀ rp, d.realPrompt = some rp → rp ≠ "" → strContains c rp) := by
  refine ⟨_, generate_success_eq prompt user_id res st now d hs hc hd,
    ?_, ?_, rfl, ?_, rfl, ?_⟩
  · rw [ht, getKey_setKey]
    simp
  · intro k hk
    rw [ht, getKey_setKey, if_neg (fun h => hk h.symm)]
  · rw [ht]
  · refine ⟨_, rfl, ?_, ?_⟩
    · by_cases hb : strTruthy d.realPrompt
      · rw [if_pos hb]
        refine strContains_data _ _
          (("🚀你的作品将在1~2分钟左右完成，请耐心等待\n- - - - - - - - -\n" : String).data ++
            ("初始prompt: " : String).data)
          (("\n转换后prompt: " : String).data ++ (pyStr d.realPrompt).data) ?_
        simp [String.data_append]
      · rw [if_neg hb]
        refine strContains_data _ _
          (("🚀你的作品将在1~2分钟左右完成，请耐心等待\n- - - - - - - - -\n" : String).data ++
            ("prompt: " : String).data) [] ?_
        simp [String.data_append]
    · intro rp hrp hne
      have hb : strTruthy d.realPrompt = true := by simp [hrp, strTruthy, hne]
      rw [if_pos hb, hrp]
      refine strContains_data _ _
        (("🚀你的作品将在1~2分钟左右完成，请耐心等待\n- - - - - - - - -\n" : String).data ++
          ("初始prompt: " : String).data ++ prompt.data ++
          ("\n转换后prompt: " : String).data) [] ?_
      simp [String.data_append, pyStr]

/-- Witness for C5 at the fixture `genOKrp` (task id `T1`, rewritten
prompt `real cat`). -/
theorem generate_success_registers_witness :
    ∃ r : OpResult, generate "a cat" "u1" genOKrp st0 0 = Except.ok r ∧
      r.scheduled = [some "T1"] ∧
      getKey r.state.tasks (some "T1") = some (MJTask.make (some "T1") "u1"
        TaskType.GENERATE (some "a cat") 0 Status.PENDING) := by
  obtain ⟨r, h1, h2, _, _, h5, _, _⟩ :=
    generate_success_registers "a cat" "u1" genOKrp st0 0
      ⟨some "T1", some "real cat"⟩ "T1" rfl rfl rfl rfl
  exact ⟨r, h1, h5, h2⟩

/-- Whether a reply is an image-URL reply. -/
def isImageReply (x : Reply) : Bool :=
  match x.type with
  | ReplyType.IMAGE_URL => true
  | _ => false

/-- C7: on a `FINISHED` poll the deliverer marks the record `FINISHED`,
copies `imgId`/`imgUrl` from the poll payload, sends exactly one
image-URL reply (first), and sends the follow-up informational text
(with the prompt, the image id and the `mju` upscale instructions) if
and only if the task is a `GENERATE` task. -/
theorem deliver_finished (task : MJTask) (res : PollData) (tp : String) :
    (process_success_task task res tp).task.status = Status.FINISHED ∧
    (process_success_task task res tp).task.img_id = res.imgId ∧
    (process_success_task task res tp).task.img_url = res.imgUrl ∧
    ((process_success_task task res tp).sent.filter isImageReply).length = 1 ∧
    (process_success_task task res tp).sent.head? =
      some (Reply.mk ReplyType.IMAGE_URL res.imgUrl) ∧
    (task.task_type = TaskType.GENERATE ↔
      (process_success_task task res tp).sent.length = 2) ∧
    (task.task_type = TaskType.GENERATE →
      ∃ txt, (process_success_task task res tp).sent =
          [Reply.mk ReplyType.IMAGE_URL res.imgUrl,
           Reply.mk ReplyType.INFO (some txt)] ∧
        (∀ p, task.raw_prompt = some p → strContains txt p) ∧
        (∀ i, res.imgId = some i → strContains txt i) ∧
        strContains txt (tp ++ "mju")) ∧
    (task.task_type ≠ TaskType.GENERATE →
      (process_success_task task res tp).sent =
        [Reply.mk ReplyType.IMAGE_URL res.imgUrl]) := by
  have hsplit : ("mju 命令放大指定图片\n" : String).data =
      ("mju" : String).data ++ (" 命令放大指定图片\n" : String).data := by decide
  by_cases hg : task.task_type = TaskType.GENERATE
  · refine ⟨by simp [process_success_task, hg], by simp [process_success_task, hg],
      by simp [process_success_task, hg],
      by simp [process_success_task, hg, isImageReply],
      by simp [process_success_task, hg], by simp [process_success_task, hg],
      ?_, fun hn => absurd hg hn⟩
    intro _
    refine ⟨"🎨绘画完成!\nprompt: " ++ pyStr task.raw_prompt ++
      "\n- - - - - - - - -\n图片ID: " ++ pyStr res.imgId ++
      "\n\n🔎可使用 " ++ tp ++ "mju 命令放大指定图片\n" ++
      "例如：\n" ++ tp ++ "mju " ++ pyStr res.imgId ++ " 1",
      by simp [process_success_task, hg], ?_, ?_, ?_⟩
    · intro p hp
      rw [hp]
      refine strContains_data _ _ (("🎨绘画完成!\nprompt: " : String).data)
        (("\n- - - - - - - - -\n图片ID: " ++ pyStr res.imgId ++
          "\n\n🔎可使用 " ++ tp ++ "mju 命令放大指定图片\n" ++
          "例如：\n" ++ tp ++ "mju " ++ pyStr res.imgId ++ " 1" : String).data) ?_
      simp [String.data_append, pyStr]
    · intro i hi
      rw [hi]
      refine strContains_data _ _
        (("🎨绘画完成!\nprompt: " ++ pyStr task.raw_prompt ++
          "\n- - - - - - - - -\n图片ID: " : String).data)
        (("\n\n🔎可使用 " ++ tp ++ "mju 命令放大指定图片\n" ++
          "例如：\n" ++ tp ++ "mju " ++ pyStr (some i) ++ " 1" : String).data) ?_
      simp [String.data_append, pyStr]
    · refine strContains_data _ _
        (("🎨绘画完成!\nprompt: " ++ pyStr task.raw_prompt ++
          "\n- - - - - - - - -\n图片ID: " ++ pyStr res.imgId ++
          "\n\n🔎可使用 " : String).data)
        ((" 命令放大指定图片\n" ++ "例如：\n" ++ tp ++ "mju " ++
          pyStr res.imgId ++ " 1" : String).data) ?_
      simp [String.data_append, hsplit, List.append_assoc]
  · refine ⟨by simp [process_success_task, hg], by simp [process_success_task, hg],
      by simp [process_success_task, hg],
      by simp [process_success_task, hg, isImageReply],
      by simp [process_success_task, hg], by simp [process_success_task, hg],
      fun h => absurd h hg, fun _ => by simp [process_success_task, hg]⟩

/-- Witness for C7 at a concrete finished Generate task. -/
theorem deliver_finished_witness :
    (process_success_task (MJTask.make (some "T1") "u1" TaskType.GENERATE
        (some "a cat") 0 Status.PENDING)
      ⟨some "FINISHED", some "I9", some "http://img"⟩ "$").task.status =
        Status.FINISHED ∧
    ((process_success_task (MJTask.make (some "T1") "u1" TaskType.GENERATE
        (some "a cat") 0 Status.PENDING)
      ⟨some "FINISHED", some "I9", some "http://img"⟩ "$").sent.filter
        isImageReply).length = 1 ∧
    strContains "🎨绘画完成!\nprompt: a cat\n- - - - - - - - -\n图片ID: I9\n\n🔎可使用 $mju 命令放大指定图片\n例如：\n$mju I9 1" "a cat" := by
  obtain ⟨h1, _, _, h4, _, _, h7, _⟩ :=
    deliver_finished (MJTask.make (some "T1") "u1" TaskType.GENERATE
      (some "a cat") 0 Status.PENDING)
      ⟨some "FINISHED", some "I9", some "http://img"⟩ "$"
  obtain ⟨txt, hsent, hp, _, _⟩ := h7 rfl
  have htxt : txt = "🎨绘画完成!\nprompt: a cat\n- - - - - - - - -\n图片ID: I9\n\n🔎可使用 $mju 命令放大指定图片\n例如：\n$mju I9 1" := by
    have := hsent
    simp [process_success_task, MJTask.make, pyStr] at this
    exact this.symm
  exact ⟨h1, h4, htxt ▸ hp "a cat" rfl⟩

/-- C3 counterexample: a non-numeric Upscale index is not rejected with
an error-level chat reply — `int(clist[1])` raises an uncaught
`ValueError` (before any HTTP call). -/
theorem upscale_nonnumeric_counterexample :
    process_mj_task TaskType.UPSCALE "$mju img abc" "s1" genOK opOK st0 0 "$" =
      Except.error "ValueError" := by
  rfl

/-- C3 amended: for an Upscale command, an index outside [1,4] is
rejected with an error reply before any HTTP call (and before the
dedup-key check — validation order is missing-token check, then range
check, then dedup check), a non-numeric index raises an uncaught
`ValueError` before any HTTP call, an index 1–4 with no dedup hit passes
validation and proceeds to the `/operate` call, and a missing second
token yields the missing-parameter error reply. -/
theorem upscale_index_validation (content : String) (session_id : String)
    (genRes : HttpResponse) (opRes : HttpResponse) (st : BotState) (now : Nat)
    (tp : String) (cmd0 cmd1 : String) (rest : List String)
    (hcmd : pySplitMax1 content = cmd0 :: cmd1 :: rest) :
    (∀ img istr r2 (n : Int), pySplit cmd1 = img :: istr :: r2 →
      pyInt istr = some n → (n < 1 ∨ n > 4) →
      process_mj_task TaskType.UPSCALE content session_id genRes opRes st now tp =
        Except.ok ⟨some (Reply.mk ReplyType.ERROR
          (some ("图片序号 " ++ toString n ++ " 错误，应在 1 至 4 之间"))),
          st, [], []⟩) ∧
    (∀ img istr r2, pySplit cmd1 = img :: istr :: r2 → pyInt istr = none →
      process_mj_task TaskType.UPSCALE content session_id genRes opRes st now tp =
        Except.error "ValueError") ∧
    (∀ img istr r2 (n : Int), pySplit cmd1 = img :: istr :: r2 →
      pyInt istr = some n → 1 ≤ n → n ≤ 4 →
      truthy (getKey st.temp_dict
        (TaskType.UPSCALE.pyName ++ "_" ++ img ++ "_" ++ toString n)) = false →
      process_mj_task TaskType.UPSCALE content session_id genRes opRes st now tp =
        upscale session_id img n opRes st now) ∧
    (∀ img, pySplit cmd1 = [img] →
      process_mj_task TaskType.UPSCALE content session_id genRes opRes st now tp =
        Except.ok ⟨some (Reply.mk ReplyType.ERROR
          (some (cmd0 ++ " 命令缺少参数"))), st, [], []⟩) := by
  have hlen : (pySplitMax1 content).length ≠ 1 := by rw [hcmd]; simp
  refine ⟨?_, ?_, ?_, ?_⟩
  · intro img istr r2 n hcl hn hr
    simp only [process_mj_task, hcmd, hcl, hn]
    simp [hlen, hr]
  · intro img istr r2 hcl hn
    simp only [process_mj_task, hcmd, hcl, hn]
    simp [hlen]
  · intro img istr r2 n hcl hn h1 h4 hdup
    have hr : ¬(n < 1 ∨ n > 4) := by omega
    simp only [process_mj_task, hcmd, hcl, hn]
    simp [hlen, hr, hdup]
  · intro img hcl
    simp only [process_mj_task, hcmd, hcl]
    simp [hlen]

/-- Witness for the amended C3: index 5 is rejected with the range error,
index 2 passes validation and proceeds to `upscale`, and a single-token
argument yields the missing-parameter reply. -/
theorem upscale_index_validation_witness :
    process_mj_task TaskType.UPSCALE "$mju img 5" "s1" genOK opOK st0 0 "$" =
      Except.ok ⟨some (Reply.mk ReplyType.ERROR
        (some ("图片序号 " ++ toString (5 : Int) ++ " 错误，应在 1 至 4 之间"))),
        st0, [], []⟩ ∧
    process_mj_task TaskType.UPSCALE "$mju img 2" "s1" genOK opOK st0 0 "$" =
      upscale "s1" "img" 2 opOK st0 0 ∧
    process_mj_task TaskType.UPSCALE "$mju img" "s1" genOK opOK st0 0 "$" =
      Except.ok ⟨some (Reply.mk ReplyType.ERROR
        (some ("$mju" ++ " 命令缺少参数"))), st0, [], []⟩ :=
  ⟨(upscale_index_validation "$mju img 5" "s1" genOK opOK st0 0 "$"
      "$mju" "img 5" [] rfl).1 "img" "5" [] 5 rfl rfl (by decide),
   (upscale_index_validation "$mju img 2" "s1" genOK opOK st0 0 "$"
      "$mju" "img 2" [] rfl).2.2.1 "img" "2" [] 2 rfl rfl (by decide)
      (by decide) rfl,
   (upscale_index_validation "$mju img" "s1" genOK opOK st0 0 "$"
      "$mju" "img" [] rfl).2.2.2 "img" rfl⟩

/-- The equation of `upscale` on the success path. -/
theorem upscale_success_eq (user_id : String) (img_id : String) (index : Int)
    (res : HttpResponse) (st : BotState) (now : Nat) (d : RespData)
    (hs : res.status_code = 200) (hc : res.code = some 200)
    (hd : res.data = some d) :
    upscale user_id img_id index res st now = Except.ok
      ⟨some (Reply.mk ReplyType.INFO (some "🔎图片正在放大中，请耐心等待")),
       ⟨setKey st.tasks d.taskId
          (MJTask.make d.taskId user_id TaskType.UPSCALE none now Status.PENDING),
        setKey st.temp_dict
          (TaskType.UPSCALE.pyName ++ "_" ++ img_id ++ "_" ++ toString index) true⟩,
       [d.taskId],
       [Event.httpPostOperate, Event.writeTasks d.taskId,
        Event.writeTempDict
          (TaskType.UPSCALE.pyName ++ "_" ++ img_id ++ "_" ++ toString index),
        Event.scheduleCoroutine d.taskId]⟩ := by
  simp [upscale, hs, hc, hd, MJTask.make]

/-- The two possible registry states after a successful `generate`. -/
theorem generate_state_cases (prompt : String) (user_id : String)
    (res : HttpResponse) (st : BotState) (now : Nat) (r : OpResult)
    (h : generate prompt user_id res st now = Except.ok r) :
    r.state.tasks = st.tasks ∨ ∃ d : RespData, res.data = some d ∧
      r.state.tasks = setKey st.tasks d.taskId
        (MJTask.make d.taskId user_id TaskType.GENERATE (some prompt) now
          Status.PENDING) := by
  by_cases h1 : res.status_code = 200
  · by_cases h2 : res.code = some 200
    · cases hd : res.data with
      | none => simp [generate, h1, h2, hd] at h
      | some d =>
        rw [generate_success_eq prompt user_id res st now d h1 h2 hd] at h
        injection h with h
        exact Or.inr ⟨d, rfl, by rw [← h]⟩
    · simp [generate, h1, h2] at h
      exact Or.inl (by rw [← h])
  · simp [generate, h1] at h
    exact Or.inl (by rw [← h])

/-- The two possible registry states after a successful `upscale`. -/
theorem upscale_state_cases (user_id : String) (img_id : String) (index : Int)
    (res : HttpResponse) (st : BotState) (now : Nat) (r : OpResult)
    (h : upscale user_id img_id index res st now = Except.ok r) :
    r.state.tasks = st.tasks ∨ ∃ d : RespData, res.data = some d ∧
      r.state.tasks = setKey st.tasks d.taskId
        (MJTask.make d.taskId user_id TaskType.UPSCALE none now
          Status.PENDING) := by
  by_cases h1 : res.status_code = 200
  · by_cases h2 : res.code = some 200
    · cases hd : res.data with
      | none => simp [upscale, h1, h2, hd] at h
      | some d =>
        rw [upscale_success_eq user_id img_id index res st now d h1 h2 hd] at h
        injection h with h
        exact Or.inr ⟨d, rfl, by rw [← h]⟩
    · simp [upscale, h1, h2] at h
      exact Or.inl (by rw [← h])
  · simp [upscale, h1] at h
    exact Or.inl (by rw [← h])

/-- One operation never removes a registry key. -/
theorem applyOp_keeps (st : BotState) (op : MJOp) (k : Option String)
    (v : MJTask) (h : getKey st.tasks k = some v) :
    ∃ v', getKey (applyOp st op).tasks k = some v' := by
  cases op with
  | gen p u r n =>
    simp only [applyOp]
    cases hgen : generate p u r st n with
    | error e => exact ⟨v, h⟩
    | ok rr =>
      dsimp only
      rcases generate_state_cases p u r st n rr hgen with hsame | ⟨d, _, hset⟩
      · exact ⟨v, by rw [hsame]; exact h⟩
      · rw [hset, getKey_setKey]
        by_cases he : d.taskId = k
        · exact ⟨_, by rw [if_pos he]⟩
        · exact ⟨v, by rw [if_neg he]; exact h⟩
  | ups u g idx r n =>
    simp only [applyOp]
    cases hups : upscale u g idx r st n with
    | error e => exact ⟨v, h⟩
    | ok rr =>
      dsimp only
      rcases upscale_state_cases u g idx r st n rr hups with hsame | ⟨d, _, hset⟩
      · exact ⟨v, by rw [hsame]; exact h⟩
      · rw [hset, getKey_setKey]
        by_cases he : d.taskId = k
        · exact ⟨_, by rw [if_pos he]⟩
        · exact ⟨v, by rw [if_neg he]; exact h⟩
  | check => exact ⟨v, h⟩
  | deliver id pres tp =>
    simp only [applyOp]
    cases hl : getKey st.tasks id with
    | none => exact ⟨v, h⟩
    | some t =>
      dsimp only
      rw [getKey_setKey]
      by_cases he : id = k
      · exact ⟨_, by rw [if_pos he]⟩
      · exact ⟨v, by rw [if_neg he]; exact h⟩

/-- C8: registry keys only grow.  Along any sequence of operations a
registered Task Record's key is never removed, and an operation whose
fresh task id is not yet registered adds exactly that record while
leaving every existing binding untouched (no re-registration under an
existing id when the remote service never reuses ids). -/
theorem registry_only_grows (st : BotState) (ops : List MJOp) :
    (∀ k v, getKey st.tasks k = some v →
      ∃ v', getKey (applyOps st ops).tasks k = some v') ∧
    (∀ (p u : String) (r : HttpResponse) (now : Nat) (d : RespData),
      r.status_code = 200 → r.code = some 200 → r.data = some d →
      getKey st.tasks d.taskId = none →
      getKey (applyOp st (MJOp.gen p u r now)).tasks d.taskId =
        some (MJTask.make d.taskId u TaskType.GENERATE (some p) now
          Status.PENDING) ∧
      ∀ k v, getKey st.tasks k = some v →
        getKey (applyOp st (MJOp.gen p u r now)).tasks k = some v) ∧
    (∀ (u g : String) (idx : Int) (r : HttpResponse) (now : Nat) (d : RespData),
      r.status_code = 200 → r.code = some 200 → r.data = some d →
      getKey st.tasks d.taskId = none →
      getKey (applyOp st (MJOp.ups u g idx r now)).tasks d.taskId =
        some (MJTask.make d.taskId u TaskType.UPSCALE none now Status.PENDING) ∧
      ∀ k v, getKey st.tasks k = some v →
        getKey (applyOp st (MJOp.ups u g idx r now)).tasks k = some v) := by
  refine ⟨?_, ?_, ?_⟩
  · induction ops generalizing st with
    | nil => exact fun k v h => ⟨v, h⟩
    | cons op ops ih =>
      intro k v h
      obtain ⟨v', h'⟩ := applyOp_keeps st op k v h
      exact ih (applyOp st op) k v' h'
  · intro p u r now d h1 h2 hd hfresh
    simp only [applyOp]
    rw [generate_success_eq p u r st now d h1 h2 hd]
    constructor
    · rw [getKey_setKey, if_pos rfl]
    · intro k v h
      rw [getKey_setKey]
      have hne : d.taskId ≠ k := fun he => by
        rw [he, h] at hfresh
        exact Option.noConfusion hfresh
      rw [if_neg hne]
      exact h
  · intro u g idx r now d h1 h2 hd hfresh
    simp only [applyOp]
    rw [upscale_success_eq u g idx r st now d h1 h2 hd]
    constructor
    · rw [getKey_setKey, if_pos rfl]
    · intro k v h
      rw [getKey_setKey]
      have hne : d.taskId ≠ k := fun he => by
        rw [he, h] at hfresh
        exact Option.noConfusion hfresh
      rw [if_neg hne]
      exact h

/-- Witness for C8: starting from a registry holding `T0`, a fresh
Generate for `T1` keeps `T0` and adds `T1`. -/
theorem registry_only_grows_witness :
    (∃ v', getKey (applyOps ⟨[(some "T0", MJTask.make (some "T0") "u0"
        TaskType.GENERATE (some "p0") 0 Status.PENDING)], []⟩
        [MJOp.gen "a cat" "u1" genOK 0]).tasks (some "T0") = some v') ∧
    getKey (applyOp ⟨[(some "T0", MJTask.make (some "T0") "u0"
        TaskType.GENERATE (some "p0") 0 Status.PENDING)], []⟩
        (MJOp.gen "a cat" "u1" genOK 0)).tasks (some "T1") =
      some (MJTask.make (some "T1") "u1" TaskType.GENERATE (some "a cat") 0
        Status.PENDING) := by
  have h := registry_only_grows ⟨[(some "T0", MJTask.make (some "T0") "u0"
    TaskType.GENERATE (some "p0") 0 Status.PENDING)], []⟩
    [MJOp.gen "a cat" "u1" genOK 0]
  refine ⟨h.1 (some "T0") (MJTask.make (some "T0") "u0" TaskType.GENERATE
    (some "p0") 0 Status.PENDING) rfl, ?_⟩
  exact (h.2.1 "a cat" "u1" genOK 0 ⟨some "T1", none⟩ rfl rfl rfl rfl).1

/-- The poll loop performs at most `budget.toNat` iterations beyond the
`iters` already counted: every iteration that continues costs the budget
at least 1. -/
theorem check_go_iters_le (rs : Nat → PollResponse) (fuel : Nat) :
    ∀ (b : Int), b.toNat ≤ fuel → ∀ i iters sleeps,
      (check_task_go rs b i iters sleeps).iters ≤ iters + b.toNat := by
  induction fuel with
  | zero =>
    intro b hb i iters sleeps
    have hb0 : ¬ b > 0 := by omega
    unfold check_task_go
    rw [dif_neg hb0]
    show iters ≤ iters + b.toNat
    omega
  | succ fuel ih =>
    intro b hb i iters sleeps
    unfold check_task_go
    by_cases hb0 : b > 0
    · rw [dif_pos hb0]
      by_cases hfin : (rs i).status = 200 ∧ pollFinished (rs i) = true
      · rw [if_pos hfin]
        show iters + 1 ≤ iters + b.toNat
        omega
      · rw [if_neg hfin]
        have H := ih ((if (rs i).status = 200 then b else b - 20) - 1)
          (by split <;> omega) (i + 1) (iters + 1) (sleeps + 1)
        refine le_trans H ?_
        split <;> omega
    · rw [dif_neg hb0]
      show iters ≤ iters + b.toNat
      omega

/-- Iteration/sleep accounting of the poll loop: a run that ends by
observing `FINISHED` has exactly one more iteration than sleeps (the
final iteration returns before `asyncio.sleep`); a run that exhausts the
budget has as many sleeps as iterations. -/
theorem check_go_sleeps (rs : Nat → PollResponse) (fuel : Nat) :
    ∀ (b : Int), b.toNat ≤ fuel → ∀ i iters sleeps,
      (check_task_go rs b i iters sleeps).iters + sleeps =
        (check_task_go rs b i iters sleeps).sleeps + iters +
          (if (check_task_go rs b i iters sleeps).finished = true then 1 else 0) := by
  induction fuel with
  | zero =>
    intro b hb i iters sleeps
    have hb0 : ¬ b > 0 := by omega
    unfold check_task_go
    rw [dif_neg hb0]
    simp
    omega
  | succ fuel ih =>
    intro b hb i iters sleeps
    unfold check_task_go
    by_cases hb0 : b > 0
    · rw [dif_pos hb0]
      by_cases hfin : (rs i).status = 200 ∧ pollFinished (rs i) = true
      · rw [if_pos hfin]
        simp
        omega
      · rw [if_neg hfin]
        have H := ih ((if (rs i).status = 200 then b else b - 20) - 1)
          (by split <;> omega) (i + 1) (iters + 1) (sleeps + 1)
        cases hf : (check_task_go rs ((if (rs i).status = 200 then b else b - 20) - 1)
            (i + 1) (iters + 1) (sleeps + 1)).finished <;>
          simp [hf] at H ⊢ <;> omega
    · rw [dif_neg hb0]
      simp
      omega

/-- When every poll response is a transport error (HTTP ≠ 200), each
iteration costs 21 budget units (20 for the error, 1 after the sleep). -/
theorem check_go_all_err (rs : Nat → PollResponse)
    (herr : ∀ j, (rs j).status ≠ 200) (fuel : Nat) :
    ∀ (b : Int), b.toNat ≤ fuel → ∀ i iters sleeps,
      (check_task_go rs b i iters sleeps).iters = iters + (b.toNat + 20) / 21 ∧
      (check_task_go rs b i iters sleeps).finished = false := by
  induction fuel with
  | zero =>
    intro b hb i iters sleeps
    have hb0 : ¬ b > 0 := by omega
    unfold check_task_go
    rw [dif_neg hb0]
    exact ⟨by show iters = iters + (b.toNat + 20) / 21; omega, rfl⟩
  | succ fuel ih =>
    intro b hb i iters sleeps
    unfold check_task_go
    by_cases hb0 : b > 0
    · rw [dif_pos hb0]
      have hfin : ¬((rs i).status = 200 ∧ pollFinished (rs i) = true) :=
        fun hc => herr i hc.1
      rw [if_neg hfin, if_neg (herr i)]
      have H := ih (b - 20 - 1) (by omega) (i + 1) (iters + 1) (sleeps + 1)
      exact ⟨by rw [H.1]; omega, H.2⟩
    · rw [dif_neg hb0]
      exact ⟨by show iters = iters + (b.toNat + 20) / 21; omega, rfl⟩

/-- When every poll response is HTTP 200 but never `FINISHED`, each
iteration costs exactly 1 budget unit, so the loop runs `budget` times
and ends unfinished. -/
theorem check_go_all_pending (rs : Nat → PollResponse)
    (hp : ∀ j, (rs j).status = 200 ∧ pollFinished (rs j) = false) (fuel : Nat) :
    ∀ (b : Int), b.toNat ≤ fuel → ∀ i iters sleeps,
      (check_task_go rs b i iters sleeps).iters = iters + b.toNat ∧
      (check_task_go rs b i iters sleeps).finished = false := by
  induction fuel with
  | zero =>
    intro b hb i iters sleeps
    have hb0 : ¬ b > 0 := by omega
    unfold check_task_go
    rw [dif_neg hb0]
    exact ⟨by show iters = iters + b.toNat; omega, rfl⟩
  | succ fuel ih =>
    intro b hb i iters sleeps
    unfold check_task_go
    by_cases hb0 : b > 0
    · rw [dif_pos hb0]
      have hfin : ¬((rs i).status = 200 ∧ pollFinished (rs i) = true) :=
        fun hc => by
          have := (hp i).2
          rw [hc.2] at this
          exact Bool.noConfusion this
      rw [if_neg hfin, if_pos (hp i).1]
      have H := ih (b - 1) (by omega) (i + 1) (iters + 1) (sleeps + 1)
      exact ⟨by rw [H.1]; omega, H.2⟩
    · rw [dif_neg hb0]
      exact ⟨by show iters = iters + b.toNat; omega, rfl⟩

/-- C1: the polling coroutine `check_task` terminates within at most 80
iterations for every response stream; an observed `FINISHED` ends the
run on that very iteration (one more iteration than sleeps, with no
further sleep or decrement); a stream of transport errors costs 21 units
per iteration and ends after 4 iterations; a stream of HTTP-200
not-yet-finished responses costs 1 unit per iteration and ends,
unfinished, after exactly 80 iterations. -/
theorem check_task_poll_budget (rs : Nat → PollResponse) :
    (check_task rs).iters ≤ 80 ∧
    ((check_task rs).finished = true →
      (check_task rs).sleeps + 1 = (check_task rs).iters) ∧
    ((∀ j, (rs j).status ≠ 200) →
      (check_task rs).iters = 4 ∧ (check_task rs).finished = false) ∧
    ((∀ j, (rs j).status = 200 ∧ pollFinished (rs j) = false) →
      (check_task rs).iters = 80 ∧ (check_task rs).finished = false) := by
  refine ⟨?_, ?_, ?_, ?_⟩
  · have := check_go_iters_le rs 80 80 (by decide) 0 0 0
    simpa [check_task] using this
  · intro hf
    have := check_go_sleeps rs 80 80 (by decide) 0 0 0
    rw [check_task] at hf ⊢
    rw [if_pos hf] at this
    omega
  · intro herr
    have := check_go_all_err rs herr 80 80 (by decide) 0 0 0
    simpa [check_task] using this
  · intro hp
    have := check_go_all_pending rs hp 80 80 (by decide) 0 0 0
    simpa [check_task] using this

/-- An all-transport-error response stream. -/
def errStream : Nat → PollResponse := fun _ => ⟨500, none⟩

/-- An HTTP-200 never-finished response stream. -/
def pendStream : Nat → PollResponse := fun _ => ⟨200, none⟩

/-- A stream whose every response reports `FINISHED`. -/
def finStream : Nat → PollResponse :=
  fun _ => ⟨200, some ⟨some "FINISHED", some "I1", some "http://img"⟩⟩

/-- Witness for C1 on three concrete streams: errors exhaust the budget
in 4 iterations, pending responses in exactly 80, and a `FINISHED`
response ends the run with one more iteration than sleeps. -/
theorem check_task_poll_budget_witness :
    (check_task errStream).iters = 4 ∧
    (check_task pendStream).iters = 80 ∧
    (check_task errStream).iters ≤ 80 ∧
    (check_task finStream).sleeps + 1 = (check_task finStream).iters := by
  have hrun : check_task finStream = ⟨1, 0, true⟩ := by
    rw [check_task]
    unfold check_task_go
    rw [dif_pos (by norm_num), if_pos ⟨rfl, rfl⟩]
  refine ⟨((check_task_poll_budget errStream).2.2.1
      (fun j => by simp [errStream])).1,
    ((check_task_poll_budget pendStream).2.2.2
      (fun j => by simp [pendStream, pollFinished])).1,
    (check_task_poll_budget errStream).1,
    (check_task_poll_budget finStream).2.1 (by rw [hrun])⟩
